import Mathlib

/-!
Verification of the object ownership and interop layer of a Python binding
library (pybind11-style `pytypes` and `internals` translation units).

The development shallowly embeds the C++ wrapper code over an explicit model
of the host-runtime (CPython-like) state: a reference count per object
pointer, per-container item slots, and the thread-wide error indicator.
Pointers are modelled as natural numbers with `0` playing the role of the
null pointer.  Host-runtime C API primitives (`PyErr_Fetch`, `PyList_SetItem`,
`PyIter_Next`, ...) are not part of the sources; they are modelled from their
documented contracts as quoted by the sources' comments and the
specification (steal vs. borrow reference-count conventions, null-with-error
failure signalling).  The wrapper functions themselves are translated
line by line from the sources.
-/

namespace Pyb

/-- An object pointer; `0` is the null pointer (`nullptr` / absence). -/
abbrev Ptr := Nat

/-- The error-indicator triple (type, value, traceback) of the host runtime.
A triple whose `ty` component is `0` means no error is set. -/
structure ErrTriple where
  ty : Ptr
  va : Ptr
  tb : Ptr
deriving DecidableEq

/-- The cleared error indicator: all three slots null. -/
def ErrTriple.clear : ErrTriple := ⟨0, 0, 0⟩

/-- The host-runtime state visible to this layer: per-pointer reference
counts, per-container indexed item slots (`none` marks an invalid index),
and the pending-error indicator. -/
structure State where
  refcnt : Ptr → Nat
  slots : Ptr → Nat → Option Ptr
  indicator : ErrTriple

/-- Py_XINCREF: increment the count of a non-null pointer; no-op on null. -/
def Py_XINCREF (p : Ptr) (s : State) : State :=
  if p = 0 then s
  else { s with refcnt := fun q => if q = p then s.refcnt q + 1 else s.refcnt q }

/-- Py_XDECREF: decrement the count of a non-null pointer; no-op on null. -/
def Py_XDECREF (p : Ptr) (s : State) : State :=
  if p = 0 then s
  else { s with refcnt := fun q => if q = p then s.refcnt q - 1 else s.refcnt q }

/-- PyErr_Occurred: an error is pending iff the indicator's type is non-null. -/
def PyErr_Occurred (s : State) : Bool := decide (s.indicator.ty ≠ 0)

/-- PyErr_Fetch: return the current indicator triple and clear it. -/
def PyErr_Fetch (s : State) : ErrTriple × State :=
  (s.indicator, { s with indicator := ErrTriple.clear })

/-- PyErr_Restore: set the indicator from the three given pointers; passing
three nulls clears the indicator. -/
def PyErr_Restore (t : ErrTriple) (s : State) : State :=
  { s with indicator := t }

/-- PyErr_Clear: clear the pending error, if any. -/
def PyErr_Clear (s : State) : State :=
  { s with indicator := ErrTriple.clear }

/-- handle: a non-owning view of a host-runtime object (raw pointer). -/
structure handle where
  m_ptr : Ptr
deriving DecidableEq

/-- handle::inc_ref: `Py_XINCREF(m_ptr)`. -/
def handle.inc_ref (h : handle) (s : State) : State := Py_XINCREF h.m_ptr s

/-- handle::dec_ref: `Py_XDECREF(m_ptr)`. -/
def handle.dec_ref (h : handle) (s : State) : State := Py_XDECREF h.m_ptr s

/-- object: an owning, reference-counted wrapper (its stored raw pointer). -/
structure object where
  m_ptr : Ptr
deriving DecidableEq

/-- object::release(): null the stored pointer without decrementing, handing
back a raw handle to the original object. -/
def object.release (o : object) : handle × object :=
  (⟨o.m_ptr⟩, ⟨0⟩)

/-- object::operator=(const object &other): `other.inc_ref(); dec_ref();
m_ptr = other.m_ptr;` — increment the right-hand side first, then decrement
the old left-hand side, then store the new pointer. -/
def object.copyAssign (s : State) (self other : object) : State × object :=
  let s1 := Py_XINCREF other.m_ptr s
  let s2 := Py_XDECREF self.m_ptr s1
  (s2, ⟨other.m_ptr⟩)

/-- error_already_set: the Error Bridge value, holding the fetched error
triple in three owned slots. -/
structure error_already_set where
  m_type : Ptr
  m_value : Ptr
  m_trace : Ptr
deriving DecidableEq

/-- error_already_set::error_already_set(): `PyErr_Fetch` the current error
indicator into the three slots, clearing the indicator.  (The
`std::runtime_error` base is initialized from `detail::error_string()`,
defined outside these sources; per the specification, capture atomically
fetches and clears the indicator, so the message computation is modelled as
not affecting the state.) -/
def error_already_set.capture (s : State) : error_already_set × State :=
  let (t, s1) := PyErr_Fetch s
  (⟨t.ty, t.va, t.tb⟩, s1)

/-- error_already_set::restore():
`PyErr_Restore(m_type.release().ptr(), m_value.release().ptr(),
m_trace.release().ptr())` — each slot is nulled by `release` and its raw
pointer handed to `PyErr_Restore`.  Returns the updated bridge value and
state. -/
def error_already_set.restore (e : error_already_set) (s : State) :
    error_already_set × State :=
  let (ht, e1) := (object.mk e.m_type).release
  let (hv, e2) := (object.mk e.m_value).release
  let (hb, e3) := (object.mk e.m_trace).release
  (⟨e1.m_ptr, e2.m_ptr, e3.m_ptr⟩, PyErr_Restore ⟨ht.m_ptr, hv.m_ptr, hb.m_ptr⟩ s)

/-- The claim on `restore`, as stated: after one `restore` the three slots
are all null, and a second `restore` is a no-op (it changes neither the
bridge value nor the runtime state). -/
def C4Claim : Prop :=
  ∀ (e : error_already_set) (s : State),
    ((e.restore s).1 = ⟨0, 0, 0⟩) ∧
    ((e.restore s).1.restore (e.restore s).2 = ((e.restore s).1, (e.restore s).2))

/-- A concrete runtime state used in counterexamples and witnesses. -/
def stateA : State :=
  { refcnt := fun _ => 1, slots := fun _ _ => none, indicator := ErrTriple.clear }

/-- C4 counterexample: a second `restore` is not a no-op.  With a captured
error `(1, 2, 3)`, the first `restore` sets the indicator to `(1, 2, 3)`;
the second `restore` hands three nulls to `PyErr_Restore`, resetting the
indicator to the cleared triple — an observable state change. -/
theorem claim4_counterexample : ¬ C4Claim := by
  intro h
  have h2 := (h ⟨1, 2, 3⟩ stateA).2
  have h3 := congrArg (fun p => (Prod.snd p).indicator.ty) h2
  simp [error_already_set.restore, object.release, PyErr_Restore, stateA,
    ErrTriple.clear] at h3

/-- C4 (amended): after `restore()` the bridge value's three slots are all
null and the indicator holds the formerly stored triple; a second `restore()`
does not fault (it is total), hands no object back (the three pointers it
passes are null, leaving the indicator entirely null), leaves every
reference count untouched — but it clears the runtime's error indicator
rather than leaving the state unchanged. -/
theorem claim4_restore_twice (e : error_already_set) (s : State) :
    ((e.restore s).1 = ⟨0, 0, 0⟩) ∧
    ((e.restore s).2.indicator = ⟨e.m_type, e.m_value, e.m_trace⟩) ∧
    (∀ s2 : State,
      ((⟨0, 0, 0⟩ : error_already_set).restore s2).1 = ⟨0, 0, 0⟩ ∧
      ((⟨0, 0, 0⟩ : error_already_set).restore s2).2.indicator = ErrTriple.clear ∧
      ((⟨0, 0, 0⟩ : error_already_set).restore s2).2.refcnt = s2.refcnt ∧
      ((⟨0, 0, 0⟩ : error_already_set).restore s2).2.slots = s2.slots) := by
  refine ⟨rfl, rfl, fun s2 => ⟨rfl, rfl, rfl, rfl⟩⟩

/-- C5: capturing a pending error (constructing `error_already_set`, which
fetches and clears the indicator) and then immediately restoring it leaves
the runtime state — in particular the error triple's three object
identities — exactly as before the capture. -/
theorem claim5_capture_restore_roundtrip (s : State)
    (h : PyErr_Occurred s = true) :
    ((error_already_set.capture s).1.restore (error_already_set.capture s).2).2 = s :=
  rfl

/-- A concrete state with a pending error, for the C5 witness. -/
def stateB : State :=
  { refcnt := fun _ => 1, slots := fun _ _ => none, indicator := ⟨5, 6, 7⟩ }

/-- C5 witness: the round trip at the concrete pending error `(5, 6, 7)`. -/
theorem claim5_witness :
    PyErr_Occurred stateB = true ∧
    ((error_already_set.capture stateB).1.restore
      (error_already_set.capture stateB).2).2 = stateB :=
  ⟨by decide, claim5_capture_restore_roundtrip stateB (by decide)⟩

/-- C8: copy-assignment increments the right-hand side before decrementing
the left-hand side (the decrement acts on the already-incremented state), so
under self-assignment of a live object (`old pointer = new pointer`, count at
least one) the stored pointer is unchanged, the net count change is zero, and
the count stays positive at every intermediate point of the assignment. -/
theorem claim8_copy_assign_self (s : State) (p : Ptr)
    (hp : p ≠ 0) (hlive : 1 ≤ s.refcnt p) :
    ((object.copyAssign s ⟨p⟩ ⟨p⟩).2 = ⟨p⟩) ∧
    ((object.copyAssign s ⟨p⟩ ⟨p⟩).1 = Py_XDECREF p (Py_XINCREF p s)) ∧
    ((Py_XINCREF p s).refcnt p = s.refcnt p + 1) ∧
    ((object.copyAssign s ⟨p⟩ ⟨p⟩).1.refcnt p = s.refcnt p) ∧
    (1 ≤ (Py_XINCREF p s).refcnt p) ∧
    (1 ≤ (object.copyAssign s ⟨p⟩ ⟨p⟩).1.refcnt p) := by
  refine ⟨rfl, rfl, ?_, ?_, ?_, ?_⟩ <;>
    simp [object.copyAssign, Py_XINCREF, Py_XDECREF, hp] <;> omega

/-- C8 witness: self-assignment of the live object `5` in `stateA`. -/
theorem claim8_witness :
    (5 : Ptr) ≠ 0 ∧ 1 ≤ stateA.refcnt 5 ∧
    ((object.copyAssign stateA ⟨5⟩ ⟨5⟩).2 = ⟨5⟩) ∧
    ((object.copyAssign stateA ⟨5⟩ ⟨5⟩).1.refcnt 5 = stateA.refcnt 5) :=
  ⟨by decide, by decide,
    (claim8_copy_assign_self stateA 5 (by decide) (by decide)).1,
    (claim8_copy_assign_self stateA 5 (by decide) (by decide)).2.2.2.1⟩

/-!
### Generic Accessor Protocol: positional `set` policies

The host-runtime setters are modelled from their documented reference-count
conventions, which the sources quote verbatim: "PyList_SetItem steals a
reference to val", "PyTuple_SetItem steals a reference to val",
"PySequence_SetItem does not steal a reference to val".  Following the
specification's count abstraction, a stealing call consumes the ownership
unit passed to it without changing the value's count, and a non-stealing
call leaves the value's count untouched; in both, the slot's previous
occupant is released.  On an invalid index the call returns a nonzero
status with an index error pending.
-/

/-- Representative pointer for the IndexError exception type object. -/
def PyExc_IndexError : Ptr := 101

/-- PyList_SetItem (modelled from the source comment and spec): store `v` in
the slot, stealing the passed reference (no count change on `v`), release
the previous occupant; fail with an index error on an invalid index. -/
def PyList_SetItem (s : State) (obj : Ptr) (i : Nat) (v : Ptr) : State × Int :=
  match s.slots obj i with
  | some old =>
    ({ s with
        slots := fun o j => if o = obj ∧ j = i then some v else s.slots o j,
        refcnt := fun q => if q = old ∧ q ≠ 0 then s.refcnt q - 1 else s.refcnt q },
      0)
  | none => ({ s with indicator := ⟨PyExc_IndexError, 0, 0⟩ }, -1)

/-- PyTuple_SetItem (modelled from the source comment and spec): same
stealing store as `PyList_SetItem`, on a tuple. -/
def PyTuple_SetItem (s : State) (obj : Ptr) (i : Nat) (v : Ptr) : State × Int :=
  match s.slots obj i with
  | some old =>
    ({ s with
        slots := fun o j => if o = obj ∧ j = i then some v else s.slots o j,
        refcnt := fun q => if q = old ∧ q ≠ 0 then s.refcnt q - 1 else s.refcnt q },
      0)
  | none => ({ s with indicator := ⟨PyExc_IndexError, 0, 0⟩ }, -1)

/-- PySequence_SetItem (modelled from the source comment and spec): store
`v` in the slot without taking ownership (the caller keeps its reference and
the value's count is unaffected), release the previous occupant; fail with
an index error on an invalid index. -/
def PySequence_SetItem (s : State) (obj : Ptr) (i : Nat) (v : Ptr) : State × Int :=
  match s.slots obj i with
  | some old =>
    ({ s with
        slots := fun o j => if o = obj ∧ j = i then some v else s.slots o j,
        refcnt := fun q => if q = old ∧ q ≠ 0 then s.refcnt q - 1 else s.refcnt q },
      0)
  | none => ({ s with indicator := ⟨PyExc_IndexError, 0, 0⟩ }, -1)

/-- list_item::set: `PyList_SetItem(obj.ptr(), index, val.inc_ref().ptr())`
— the value's count is incremented first, then handed to the stealing call;
a nonzero status raises `error_already_set`. -/
def list_item.set (s : State) (obj : handle) (index : Nat) (val : handle) :
    Except (error_already_set × State) State :=
  let s1 := val.inc_ref s
  let (s2, r) := PyList_SetItem s1 obj.m_ptr index val.m_ptr
  if r ≠ 0 then
    let (e, s3) := error_already_set.capture s2
    .error (e, s3)
  else .ok s2

/-- tuple_item::set: `PyTuple_SetItem(obj.ptr(), index, val.inc_ref().ptr())`
— same pre-increment before the stealing call. -/
def tuple_item.set (s : State) (obj : handle) (index : Nat) (val : handle) :
    Except (error_already_set × State) State :=
  let s1 := val.inc_ref s
  let (s2, r) := PyTuple_SetItem s1 obj.m_ptr index val.m_ptr
  if r ≠ 0 then
    let (e, s3) := error_already_set.capture s2
    .error (e, s3)
  else .ok s2

/-- sequence_item::set: `PySequence_SetItem(obj.ptr(), index, val.ptr())` —
no increment is performed before the non-stealing call. -/
def sequence_item.set (s : State) (obj : handle) (index : Nat) (val : handle) :
    Except (error_already_set × State) State :=
  let (s2, r) := PySequence_SetItem s obj.m_ptr index val.m_ptr
  if r ≠ 0 then
    let (e, s3) := error_already_set.capture s2
    .error (e, s3)
  else .ok s2

/-- On a successful `set`, the resulting count of the given pointer; `none`
when the `set` raised. -/
def setOkCount (r : Except (error_already_set × State) State) (p : Ptr) :
    Option Nat :=
  match r with
  | .ok s1 => some (s1.refcnt p)
  | .error _ => none

/-- C1: on a valid index holding an occupant distinct from the (non-null)
value, the list- and tuple-specialized `set` increment the value exactly
once before the underlying stealing call, so the value's count rises by
exactly one net of the call, while the generic-sequence `set` performs no
increment and leaves the value's count unchanged.  (A `some` result also
records that the call succeeded without raising.) -/
theorem claim1_specialized_set_refcounts (s : State) (obj val : handle)
    (i : Nat) (old : Ptr) (hslot : s.slots obj.m_ptr i = some old)
    (hold : old ≠ val.m_ptr) (hval : val.m_ptr ≠ 0) :
    setOkCount (list_item.set s obj i val) val.m_ptr
        = some (s.refcnt val.m_ptr + 1) ∧
    setOkCount (tuple_item.set s obj i val) val.m_ptr
        = some (s.refcnt val.m_ptr + 1) ∧
    setOkCount (sequence_item.set s obj i val) val.m_ptr
        = some (s.refcnt val.m_ptr) := by
  have hslot1 : (val.inc_ref s).slots obj.m_ptr i = some old := by
    simp [handle.inc_ref, Py_XINCREF, hval, hslot]
  refine ⟨?_, ?_, ?_⟩ <;>
    simp [setOkCount, list_item.set, tuple_item.set, sequence_item.set,
      PyList_SetItem, PyTuple_SetItem, PySequence_SetItem,
      hslot, hslot1, handle.inc_ref, Py_XINCREF, hval, Ne.symm hold]

/-- A concrete state whose container `10` has slot `0` holding object `7`. -/
def stateC : State :=
  { refcnt := fun _ => 1,
    slots := fun o j => if o = 10 ∧ j = 0 then some 7 else none,
    indicator := ErrTriple.clear }

/-- C1 witness: setting value `5` at index `0` of container `10` in
`stateC`. -/
theorem claim1_witness :
    stateC.slots 10 0 = some 7 ∧ (7 : Ptr) ≠ 5 ∧ (5 : Ptr) ≠ 0 ∧
    (setOkCount (list_item.set stateC ⟨10⟩ 0 ⟨5⟩) 5
        = some (stateC.refcnt 5 + 1) ∧
      setOkCount (tuple_item.set stateC ⟨10⟩ 0 ⟨5⟩) 5
        = some (stateC.refcnt 5 + 1) ∧
      setOkCount (sequence_item.set stateC ⟨10⟩ 0 ⟨5⟩) 5
        = some (stateC.refcnt 5)) :=
  ⟨by decide, by decide, by decide,
    claim1_specialized_set_refcounts stateC ⟨10⟩ ⟨5⟩ 0 7
      (by decide) (by decide) (by decide)⟩

/-!
### Specialized Owning Reference constructors

Each allocating constructor is embedded as a function of the raw result of
its underlying host-runtime allocation call (`0` = the call returned null);
it either stores the pointer (stealing it) or raises `pybind11_fail` with
the source's message, modelled as `Except.error`.
-/

/-- str::str(const char *, size_t): wraps `PyUnicode_FromStringAndSize`;
fatal on null. -/
def str.mkFromData (alloc : Ptr) : Except String object :=
  if alloc = 0 then .error ("Could not allocate string object!") else .ok ⟨alloc⟩

/-- str::str(const char *): wraps `PyUnicode_FromString`; fatal on null. -/
def str.mkFromCStr (alloc : Ptr) : Except String object :=
  if alloc = 0 then .error ("Could not allocate string object!") else .ok ⟨alloc⟩

/-- str::str(handle): `object(raw_str(h.ptr()), stolen_t\x7b\x7d)` — stores
the `PyObject_Str` result with no null check. -/
def str.mkFromHandle (alloc : Ptr) : Except String object :=
  .ok ⟨alloc⟩

/-- bytes::bytes(const char *): wraps `PYBIND11_BYTES_FROM_STRING`; fatal on
null. -/
def bytes.mkFromCStr (alloc : Ptr) : Except String object :=
  if alloc = 0 then .error ("Could not allocate bytes object!") else .ok ⟨alloc⟩

/-- bytes::bytes(const char *, size_t): wraps
`PYBIND11_BYTES_FROM_STRING_AND_SIZE`; fatal on null. -/
def bytes.mkFromData (alloc : Ptr) : Except String object :=
  if alloc = 0 then .error ("Could not allocate bytes object!") else .ok ⟨alloc⟩

/-- int_::int_(): `object(PyLong_FromLong(0), stolen_t\x7b\x7d)` — stores
the allocation result with no null check. -/
def int_.mkDefault (alloc : Ptr) : Except String object :=
  .ok ⟨alloc⟩

/-- float_::float_(float): wraps `PyFloat_FromDouble`; fatal on null. -/
def float_.mkFromFloat (alloc : Ptr) : Except String object :=
  if alloc = 0 then .error ("Could not allocate float object!") else .ok ⟨alloc⟩

/-- float_::float_(double): wraps `PyFloat_FromDouble`; fatal on null. -/
def float_.mkFromDouble (alloc : Ptr) : Except String object :=
  if alloc = 0 then .error ("Could not allocate float object!") else .ok ⟨alloc⟩

/-- weakref::weakref(handle, handle): wraps `PyWeakref_NewRef`; fatal on
null. -/
def weakref.mk (alloc : Ptr) : Except String object :=
  if alloc = 0 then .error ("Could not allocate weak reference!") else .ok ⟨alloc⟩

/-- slice::slice(ssize_t, ssize_t, ssize_t): wraps `PySlice_New`; fatal on
null. -/
def slice.mk (alloc : Ptr) : Except String object :=
  if alloc = 0 then .error ("Could not allocate slice object!") else .ok ⟨alloc⟩

/-- capsule::capsule(const void *, const char *, destructor): wraps
`PyCapsule_New`; fatal on null. -/
def capsule.mkWithName (alloc : Ptr) : Except String object :=
  if alloc = 0 then .error ("Could not allocate capsule object!") else .ok ⟨alloc⟩

/-- tuple::tuple(size_t): wraps `PyTuple_New`; fatal on null. -/
def tuple.mkSized (alloc : Ptr) : Except String object :=
  if alloc = 0 then .error ("Could not allocate tuple object!") else .ok ⟨alloc⟩

/-- dict::dict(): wraps `PyDict_New`; fatal on null. -/
def dict.mkDefault (alloc : Ptr) : Except String object :=
  if alloc = 0 then .error ("Could not allocate dict object!") else .ok ⟨alloc⟩

/-- list::list(size_t): wraps `PyList_New`; fatal on null. -/
def list.mkSized (alloc : Ptr) : Except String object :=
  if alloc = 0 then .error ("Could not allocate list object!") else .ok ⟨alloc⟩

/-- set::set(): wraps `PySet_New(nullptr)`; fatal on null. -/
def set.mkDefault (alloc : Ptr) : Except String object :=
  if alloc = 0 then .error ("Could not allocate set object!") else .ok ⟨alloc⟩

/-- True iff the constructor outcome raised a fatal error. -/
def raisesFatal (r : Except String object) : Bool :=
  match r with
  | .error _ => true
  | .ok _ => false

/-- The claim on allocating constructors, as stated: every one of the
modelled allocating constructors of the listed specialized types raises
fatally when the underlying allocation call returns null. -/
def C2Claim : Prop :=
  raisesFatal (str.mkFromData 0) = true ∧
  raisesFatal (str.mkFromCStr 0) = true ∧
  raisesFatal (str.mkFromHandle 0) = true ∧
  raisesFatal (bytes.mkFromCStr 0) = true ∧
  raisesFatal (bytes.mkFromData 0) = true ∧
  raisesFatal (int_.mkDefault 0) = true ∧
  raisesFatal (float_.mkFromFloat 0) = true ∧
  raisesFatal (float_.mkFromDouble 0) = true ∧
  raisesFatal (weakref.mk 0) = true ∧
  raisesFatal (slice.mk 0) = true ∧
  raisesFatal (capsule.mkWithName 0) = true ∧
  raisesFatal (tuple.mkSized 0) = true ∧
  raisesFatal (dict.mkDefault 0) = true ∧
  raisesFatal (list.mkSized 0) = true ∧
  raisesFatal (set.mkDefault 0) = true

/-- C2 counterexample: the default `int_` constructor (and likewise the
`str(handle)` conversion constructor) stores a null allocation result
without raising, so the systemic claim fails. -/
theorem claim2_counterexample : ¬ C2Claim := by
  intro h
  exact absurd h.2.2.2.2.2.1 (by decide)

/-- C2 (amended): every modelled allocating constructor of the listed
specialized types raises fatally on a null allocation result, except the
default `int_` constructor and the `str(handle)` conversion constructor,
which store the null pointer without raising. -/
theorem claim2_alloc_failure_fatal :
    raisesFatal (str.mkFromData 0) = true ∧
    raisesFatal (str.mkFromCStr 0) = true ∧
    raisesFatal (bytes.mkFromCStr 0) = true ∧
    raisesFatal (bytes.mkFromData 0) = true ∧
    raisesFatal (float_.mkFromFloat 0) = true ∧
    raisesFatal (float_.mkFromDouble 0) = true ∧
    raisesFatal (weakref.mk 0) = true ∧
    raisesFatal (slice.mk 0) = true ∧
    raisesFatal (capsule.mkWithName 0) = true ∧
    raisesFatal (tuple.mkSized 0) = true ∧
    raisesFatal (dict.mkDefault 0) = true ∧
    raisesFatal (list.mkSized 0) = true ∧
    raisesFatal (set.mkDefault 0) = true ∧
    int_.mkDefault 0 = .ok ⟨0⟩ ∧
    str.mkFromHandle 0 = .ok ⟨0⟩ := by
  refine ⟨rfl, rfl, rfl, rfl, rfl, rfl, rfl, rfl, rfl, rfl, rfl, rfl, rfl,
    rfl, rfl⟩

/-!
### Exception translation (`translate_exception`)

The native fault reaching the boundary is embedded by its dynamic type; the
source's ordered catch clauses induce, per dynamic type, the first matching
clause (`error_already_set` and the binding-layer `builtin_exception`
derive from `std::runtime_error` but are caught by their own earlier
clauses; `std::range_error` is caught by its clause before the generic
`std::exception` one).  The effect on the runtime is recorded as data:
which call the translator performs with which arguments.
`builtin_exception` and its `set_error` are declared outside these sources;
modelled from the spec/upstream as a binding-layer fault that sets its own
specific host error category. -/

/-- Host-runtime error categories used by the translator. -/
inductive PyExcKind where
  | memoryError
  | valueError
  | indexError
  | runtimeError
  | stopIteration
deriving DecidableEq

/-- A native fault, by dynamic type, with its message (`what()`). -/
inductive CppException where
  | error_already_set (t v tb : Ptr)
  | builtin_exception (target : PyExcKind) (msg : String)
  | bad_alloc (msg : String)
  | domain_error (msg : String)
  | invalid_argument (msg : String)
  | length_error (msg : String)
  | out_of_range (msg : String)
  | range_error (msg : String)
  | std_exception (msg : String)
  | unknown
deriving DecidableEq

/-- The translator's observable action: restore a captured error triple, or
set an error of a given category with a message (`PyErr_SetString`). -/
inductive TranslateEffect where
  | restored (t v tb : Ptr)
  | setString (k : PyExcKind) (msg : String)
deriving DecidableEq

/-- translate_exception: the source's catch chain, clause by clause in
order — `error_already_set` is restored; a `builtin_exception` performs its
own `set_error`; `bad_alloc` → MemoryError; `domain_error`,
`invalid_argument`, `length_error` → ValueError; `out_of_range` →
IndexError; `range_error` → ValueError; any other `std::exception` →
RuntimeError with its message; anything else → RuntimeError with the fixed
placeholder message. -/
def translate_exception : CppException → TranslateEffect
  | .error_already_set t v tb => .restored t v tb
  | .builtin_exception k m => .setString k m
  | .bad_alloc m => .setString .memoryError m
  | .domain_error m => .setString .valueError m
  | .invalid_argument m => .setString .valueError m
  | .length_error m => .setString .valueError m
  | .out_of_range m => .setString .indexError m
  | .range_error m => .setString .valueError m
  | .std_exception m => .setString .runtimeError m
  | .unknown => .setString .runtimeError ("Caught an unknown exception!")

/-- The mapping exactly as the claim states it: pending error restored;
allocation failure → memory error; domain, invalid-argument and length
faults → value errors; out-of-range → index error; generic range faults →
value errors; **any other** recognized native fault → runtime error with
its message; unrecognized fault → runtime error with the placeholder. -/
def translate_exception_as_claimed : CppException → TranslateEffect
  | .error_already_set t v tb => .restored t v tb
  | .builtin_exception _ m => .setString .runtimeError m
  | .bad_alloc m => .setString .memoryError m
  | .domain_error m => .setString .valueError m
  | .invalid_argument m => .setString .valueError m
  | .length_error m => .setString .valueError m
  | .out_of_range m => .setString .indexError m
  | .range_error m => .setString .valueError m
  | .std_exception m => .setString .runtimeError m
  | .unknown => .setString .runtimeError ("Caught an unknown exception!")

/-- The claim's mapping amended only where the counterexample forces it:
a recognized binding-layer builtin exception (caught between the
pending-error clause and the allocation-failure clause) performs its own
`set_error`, setting its specific category instead of a runtime error. -/
def translate_exception_claim_fixed : CppException → TranslateEffect
  | .builtin_exception k m => .setString k m
  | e => translate_exception_as_claimed e

/-- C3 counterexample: a binding-layer builtin fault targeting
StopIteration is translated by the code through its own `set_error`, not to
a runtime error carrying its message as the claim states. -/
theorem claim3_counterexample :
    translate_exception (.builtin_exception .stopIteration ("stop")) ≠
      translate_exception_as_claimed
        (.builtin_exception .stopIteration ("stop")) := by
  decide

/-- C3 (amended): on every native fault, `translate_exception` realizes
exactly the claim's ordered mapping amended with the builtin-exception
clause. -/
theorem claim3_translation_mapping (e : CppException) :
    translate_exception e = translate_exception_claim_fixed e := by
  cases e <;> rfl

/-!
### Generic host-object iterator

The underlying host iterator is modelled from the runtime's iteration
protocol as quoted by the spec: `PyIter_Next` yields the next element;
at exhaustion it returns null with no error; at abnormal exhaustion it
returns null after setting the error indicator (once).
-/

/-- The underlying host iterator: its remaining elements, and the fault it
signals at exhaustion, if any. -/
structure PyIterObj where
  items : List Ptr
  failAtEnd : Option ErrTriple
deriving DecidableEq

/-- PyIter_Next (modelled from the runtime iteration protocol): pop the
next element, or return null — setting the pending error when exhaustion is
signalled via a fault. -/
def PyIter_Next (it : PyIterObj) (s : State) : Ptr × PyIterObj × State :=
  match it.items with
  | p :: rest => (p, ⟨rest, it.failAtEnd⟩, s)
  | [] =>
    match it.failAtEnd with
    | some e => (0, ⟨[], none⟩, { s with indicator := e })
    | none => (0, it, s)

/-- The generic iterator wrapper: the wrapped host iterator pointer (`0`
for the default-constructed sentinel), the underlying iterator state it
designates, and the cached current value (`0` = empty). -/
structure iterator where
  m_ptr : Ptr
  it : PyIterObj
  value : Ptr
deriving DecidableEq

/-- iterator::sentinel(): the default-constructed iterator — null wrapped
pointer, empty cached value. -/
def iterator.sentinel : iterator := ⟨0, ⟨[], none⟩, 0⟩

/-- iterator::advance(): `value = reinterpret_steal<object>(PyIter_Next(m_ptr));
if (PyErr_Occurred()) throw error_already_set();` — the cached value takes
the produced pointer (null at exhaustion), and a pending error is raised
through the Error Bridge. -/
def iterator.advance (a : iterator) (s : State) :
    Except (error_already_set × State) (iterator × State) :=
  let (p, it1, s1) := PyIter_Next a.it s
  let a1 : iterator := ⟨a.m_ptr, it1, p⟩
  if PyErr_Occurred s1 then
    let (e, s2) := error_already_set.capture s1
    .error (e, s2)
  else .ok (a1, s1)

/-- iterator::operator*(): if a non-sentinel iterator has no cached value
yet, an implicit `advance` runs first (which may raise); the cached value
is returned. -/
def iterator.deref (a : iterator) (s : State) :
    Except (error_already_set × State) (Ptr × iterator × State) :=
  if a.m_ptr ≠ 0 ∧ a.value = 0 then
    match a.advance s with
    | .error es => .error es
    | .ok (a1, s1) => .ok (a1.value, a1, s1)
  else .ok (a.value, a, s)

/-- operator==(const iterator &, const iterator &):
`a->ptr() == b->ptr()` — both sides are dereferenced (with the implicit
first advance, which may raise) and the cached values compared by pointer
identity. -/
def iterator.beq (a b : iterator) (s : State) :
    Except (error_already_set × State) (Bool × State) :=
  match a.deref s with
  | .error es => .error es
  | .ok (pa, _, s1) =>
    match b.deref s1 with
    | .error es => .error es
    | .ok (pb, _, s2) => .ok (decide (pa = pb), s2)

/-- C6: with no error pending, advancing a generic iterator whose
underlying iterator is exhausted (no remaining element) either: signals
normal exhaustion — the cached value becomes empty, the iterator compares
equal to `iterator::sentinel()`, and advancing once more does not raise —
or, when exhaustion is signalled via a fault, raises that very fault
through the Error Bridge instead of swallowing it. -/
theorem claim6_iterator_exhaustion (s : State) (a : iterator) (e : ErrTriple)
    (hm : a.m_ptr ≠ 0) (hempty : a.it.items = [])
    (hok : PyErr_Occurred s = false) :
    (a.it.failAtEnd = none →
      a.advance s = .ok (⟨a.m_ptr, a.it, 0⟩, s) ∧
      iterator.beq ⟨a.m_ptr, a.it, 0⟩ iterator.sentinel s = .ok (true, s) ∧
      iterator.advance ⟨a.m_ptr, a.it, 0⟩ s = .ok (⟨a.m_ptr, a.it, 0⟩, s)) ∧
    (a.it.failAtEnd = some e → e.ty ≠ 0 →
      a.advance s =
        .error (⟨e.ty, e.va, e.tb⟩,
          { s with indicator := ErrTriple.clear })) := by
  obtain ⟨mp, ⟨items, fae⟩, v⟩ := a
  simp only at hempty ⊢
  subst hempty
  constructor
  · intro hnone
    subst hnone
    refine ⟨?_, ?_, ?_⟩ <;>
      simp [iterator.advance, iterator.beq, iterator.deref, iterator.sentinel,
        PyIter_Next, hok, hm]
  · intro hsome hety
    subst hsome
    simp [iterator.advance, PyIter_Next, PyErr_Occurred,
      error_already_set.capture, PyErr_Fetch, hety]

/-- An exhausted host iterator that signals normal exhaustion. -/
def iterDone : iterator := ⟨3, ⟨[], none⟩, 0⟩

/-- An exhausted host iterator that signals exhaustion via the fault
`(1, 2, 3)`. -/
def iterFails : iterator := ⟨3, ⟨[], some ⟨1, 2, 3⟩⟩, 0⟩

/-- C6 witness: both exhaustion modes at concrete iterators in the
error-free state `stateA`. -/
theorem claim6_witness :
    iterDone.m_ptr ≠ 0 ∧ iterDone.it.items = [] ∧
    PyErr_Occurred stateA = false ∧
    (iterDone.advance stateA = .ok (⟨iterDone.m_ptr, iterDone.it, 0⟩, stateA) ∧
      iterator.beq ⟨iterDone.m_ptr, iterDone.it, 0⟩ iterator.sentinel stateA
        = .ok (true, stateA) ∧
      iterator.advance ⟨iterDone.m_ptr, iterDone.it, 0⟩ stateA
        = .ok (⟨iterDone.m_ptr, iterDone.it, 0⟩, stateA)) ∧
    iterFails.advance stateA =
      .error (⟨1, 2, 3⟩, { stateA with indicator := ErrTriple.clear }) :=
  ⟨by decide, by decide, by decide,
    (claim6_iterator_exhaustion stateA iterDone ⟨1, 2, 3⟩
      (by decide) (by decide) (by decide)).1 rfl,
    (claim6_iterator_exhaustion stateA iterFails ⟨1, 2, 3⟩
      (by decide) (by decide) (by decide)).2 rfl (by decide)⟩

/-!
### Attribute lookup, length queries

The C-level lookup calls are modelled by their outcome: either a found
non-null new reference, or a failure that returns null/nonzero after
setting the pending error.
-/

/-- Outcome of a pointer-returning lookup call. -/
inductive LookupOutcome where
  | found (p : Ptr)
  | failed (e : ErrTriple)
deriving DecidableEq

/-- PyObject_GetAttr (modelled from the runtime contract): returns a new
non-null reference, or null with the error indicator set. -/
def PyObject_GetAttr (out : LookupOutcome) (s : State) : Ptr × State :=
  match out with
  | .found p => (p, s)
  | .failed e => (0, { s with indicator := e })

/-- getattr(obj, name): throws `error_already_set` on a null result,
otherwise steals the new reference. -/
def getattr (out : LookupOutcome) (s : State) :
    Except (error_already_set × State) (object × State) :=
  let (res, s1) := PyObject_GetAttr out s
  if res = 0 then
    let (e, s2) := error_already_set.capture s1
    .error (e, s2)
  else .ok (⟨res⟩, s1)

/-- getattr(obj, name, default_): on a null result, `PyErr_Clear()` and
return `reinterpret_borrow<object>(default_)` (the default is incremented);
otherwise steal the new reference. -/
def getattr_default (out : LookupOutcome) (default_ : handle) (s : State) :
    object × State :=
  let (res, s1) := PyObject_GetAttr out s
  if res = 0 then (⟨default_.m_ptr⟩, Py_XINCREF default_.m_ptr (PyErr_Clear s1))
  else (⟨res⟩, s1)

/-- C7: whatever fault the failed attribute lookup left pending, the
default-taking `getattr` never raises (it is a total function), clears the
pending error, and returns an owning reference borrowing the supplied
default — the default's pointer is stored and its count incremented (when
non-null), with all other state untouched. -/
theorem claim7_getattr_default (e : ErrTriple) (default_ : handle)
    (s : State) :
    ((getattr_default (.failed e) default_ s).1 = ⟨default_.m_ptr⟩) ∧
    ((getattr_default (.failed e) default_ s).2.indicator = ErrTriple.clear) ∧
    (∀ q : Ptr, (getattr_default (.failed e) default_ s).2.refcnt q =
      if q = default_.m_ptr ∧ default_.m_ptr ≠ 0 then s.refcnt q + 1
      else s.refcnt q) ∧
    ((getattr_default (.failed e) default_ s).2.slots = s.slots) := by
  obtain ⟨d⟩ := default_
  by_cases hd : d = 0 <;>
    refine ⟨rfl, ?_, fun q => ?_, ?_⟩ <;>
      simp [getattr_default, PyObject_GetAttr, PyErr_Clear, Py_XINCREF, hd]

/-- Outcome of an int-returning C call: `0` on success, nonzero after
setting the pending error. -/
inductive CallOutcome where
  | ok0
  | fail (e : ErrTriple)
deriving DecidableEq

/-- PyObject_DelAttr (modelled from the runtime contract). -/
def PyObject_DelAttr (out : CallOutcome) (s : State) : Int × State :=
  match out with
  | .ok0 => (0, s)
  | .fail e => (-1, { s with indicator := e })

/-- PyObject_SetAttr (modelled from the runtime contract). -/
def PyObject_SetAttr (out : CallOutcome) (s : State) : Int × State :=
  match out with
  | .ok0 => (0, s)
  | .fail e => (-1, { s with indicator := e })

/-- delattr(obj, name): a nonzero status raises `error_already_set`. -/
def delattr (out : CallOutcome) (s : State) :
    Except (error_already_set × State) State :=
  let (r, s1) := PyObject_DelAttr out s
  if r ≠ 0 then
    let (e, s2) := error_already_set.capture s1
    .error (e, s2)
  else .ok s1

/-- setattr(obj, name, value): a nonzero status raises
`error_already_set`. -/
def setattr (out : CallOutcome) (s : State) :
    Except (error_already_set × State) State :=
  let (r, s1) := PyObject_SetAttr out s
  if r ≠ 0 then
    let (e, s2) := error_already_set.capture s1
    .error (e, s2)
  else .ok s1

/-- hasattr(obj, name): `PyObject_HasAttr(...) == 1` — a plain boolean of
the underlying check's status, with no raising path. -/
def hasattr (res : Int) : Bool := decide (res = 1)

/-- C10: `hasattr` is true exactly when the underlying check returns `1`
(every other status — absence or error — maps to `false`) and, being a
plain boolean function of the status, never raises; by contrast, on a
failed call `getattr`, `delattr` and `setattr` raise the pending fault
through the Error Bridge. -/
theorem claim10_hasattr_total (res : Int) (e : ErrTriple) (s : State) :
    (hasattr res = true ↔ res = 1) ∧
    hasattr 0 = false ∧ hasattr (-1) = false ∧
    getattr (.failed e) s =
      .error (⟨e.ty, e.va, e.tb⟩, { s with indicator := ErrTriple.clear }) ∧
    delattr (.fail e) s =
      .error (⟨e.ty, e.va, e.tb⟩, { s with indicator := ErrTriple.clear }) ∧
    setattr (.fail e) s =
      .error (⟨e.ty, e.va, e.tb⟩, { s with indicator := ErrTriple.clear }) := by
  refine ⟨by simp [hasattr], rfl, rfl, rfl, rfl, rfl⟩

/-- C10 witness: the conjunction at status `-1`, fault `(1, 2, 3)` and
state `stateA`. -/
theorem claim10_witness :
    (hasattr (-1) = true ↔ (-1 : Int) = 1) ∧
    hasattr 0 = false ∧ hasattr (-1) = false ∧
    getattr (.failed ⟨1, 2, 3⟩) stateA =
      .error (⟨1, 2, 3⟩, { stateA with indicator := ErrTriple.clear }) ∧
    delattr (.fail ⟨1, 2, 3⟩) stateA =
      .error (⟨1, 2, 3⟩, { stateA with indicator := ErrTriple.clear }) ∧
    setattr (.fail ⟨1, 2, 3⟩) stateA =
      .error (⟨1, 2, 3⟩, { stateA with indicator := ErrTriple.clear }) :=
  claim10_hasattr_total (-1) ⟨1, 2, 3⟩ stateA

/-- len(h): `PyObject_Length`; a negative result raises `pybind11_fail`
with a fatal message. -/
def len (res : Int) (s : State) : Except String (Nat × State) :=
  if res < 0 then .error ("Unable to compute length of object")
  else .ok (res.toNat, s)

/-- len_hint(h): `PyObject_LengthHint(h.ptr(), 0)`; a negative result
clears the pending error and returns `0` instead of raising. -/
def len_hint (res : Int) (s : State) : Nat × State :=
  if res < 0 then (0, PyErr_Clear s)
  else (res.toNat, s)

/-- C9: when the underlying length query reports failure (negative
result), `len_hint` clears the pending error and returns `0` without
raising, while `len` raises fatally; consequently the failing outcome is
indistinguishable, through `len_hint`, from a genuine length of `0`. -/
theorem claim9_len_hint_swallows (res : Int) (s : State) (h : res < 0) :
    len_hint res s = (0, PyErr_Clear s) ∧
    (len_hint res s).2.indicator = ErrTriple.clear ∧
    len res s = .error ("Unable to compute length of object") ∧
    (len_hint res s).1 = (len_hint 0 s).1 := by
  refine ⟨?_, ?_, ?_, ?_⟩ <;> simp [len_hint, len, PyErr_Clear, h]

/-- C9 witness: the failing query `-1` against `stateB` (which has an
error pending). -/
theorem claim9_witness :
    (-1 : Int) < 0 ∧
    (len_hint (-1) stateB = (0, PyErr_Clear stateB) ∧
      (len_hint (-1) stateB).2.indicator = ErrTriple.clear ∧
      len (-1) stateB = .error ("Unable to compute length of object") ∧
      (len_hint (-1) stateB).1 = (len_hint 0 stateB).1) :=
  ⟨by decide, claim9_len_hint_swallows (-1) stateB (by decide)⟩

end Pyb
